import Mathlib

/-!
Shallow embedding of `src/monitor.py` (a tkinter system monitor).

The Python script samples four sensors (network identity, CPU, RAM, GPU),
assembles their results into the displayed snapshot once per tick, and
re-arms a 1000 ms timer after each tick completes.  Library primitives
(`socket`, `psutil`, `cpuinfo`, `GPUtil`) are modelled as an environment of
`Except`-valued oracles: `.ok v` means the call returns `v`, `.error e`
means the call raises a Python exception of class `e`.  Python floats are
modelled as rationals, and CPython's fixed-point string formatting
(`f"{x:.1f}"`, `f"{x:.2f}"`) as exact decimal rounding with ties to even,
which agrees with CPython on the decimal inputs used here.
-/

namespace Monitor

/-- Python exception classes that the source distinguishes:
`socket.gaierror` has its own `except` arm in `get_ip_address`; every other
exception is only ever caught by a generic `except Exception`. -/
inductive PyErr
  | gaierror
  | otherExc
deriving DecidableEq

/-- True exactly when the modelled call raises. -/
def raises {α : Type} : Except PyErr α → Bool
  | .error _ => true
  | .ok _ => false

/-! ### Decimal string formatting (CPython `:.nf` on exact decimals) -/

/-- The ASCII digit character for `n % 10`. -/
def digitChar (n : ℕ) : Char := Char.ofNat (48 + n % 10)

/-- Fuel-driven base-10 rendering of a natural number. -/
def natToStrAux : ℕ → ℕ → String
  | 0, _ => ""
  | fuel + 1, n =>
    if n < 10 then String.mk [digitChar n]
    else natToStrAux fuel (n / 10) ++ String.mk [digitChar (n % 10)]

/-- Base-10 rendering of a natural number. -/
def natToStr (n : ℕ) : String := natToStrAux (n + 1) n

/-- Left-pad a string with zeros up to length `len`. -/
def padZeros (len : ℕ) (s : String) : String :=
  if len ≤ s.length then s
  else String.mk (List.replicate (len - s.length) '0') ++ s

/-- Round the fraction `num / den` (with `den > 0`) to the nearest integer,
ties to even — the rounding CPython's `format` applies to the scaled value.
Working on numerator and denominator keeps the definition executable by the
kernel. -/
def roundHalfEvenInt (num den : ℤ) : ℤ :=
  let f : ℤ := Int.fdiv num den
  let r : ℤ := num - f * den
  if 2 * r < den then f
  else if den < 2 * r then f + 1
  else if f % 2 = 0 then f else f + 1

/-- `formatFixed nd q` models the Python f-string `f"{q:.{nd}f}"` for the
exact decimal values arising in this development: `q` scaled by `10 ^ nd`
(computed exactly as `q.num * 10 ^ nd / q.den`), rounded half-to-even, then
rendered with `nd` digits after the point. -/
def formatFixed (nd : ℕ) (q : ℚ) : String :=
  let r : ℤ := roundHalfEvenInt (q.num * (10 : ℤ) ^ nd) (q.den : ℤ)
  let sign : String := if r < 0 then "-" else ""
  let m : ℕ := r.natAbs
  if nd = 0 then sign ++ natToStr m
  else sign ++ natToStr (m / 10 ^ nd) ++ "." ++ padZeros nd (natToStr (m % 10 ^ nd))

/-- Does the character sequence `p` occur at the front of `s`? -/
def charsMatch : List Char → List Char → Bool
  | [], _ => true
  | _ :: _, [] => false
  | p :: ps, c :: cs => p = c && charsMatch ps cs

/-- Python's `s.startswith(p)`, evaluated on the character sequences. -/
def startsWithPy (s p : String) : Bool := charsMatch p.data s.data

/-! ### Network identity sensor (`get_ip_address`, monitor.py lines 25-50) -/

/-- Environment for `get_ip_address`: one oracle per library call the body
makes.  `gethostbyname` is a function of the queried name because the body
calls it up to twice with the same hostname. -/
structure NetEnv where
  gethostname : Except PyErr String
  gethostbyname : String → Except PyErr String
  socketNew : Except PyErr Unit
  connectTrick : Except PyErr Unit
  getsockname : Except PyErr String
  closeSocket : Except PyErr Unit

/-- Body of the outer `try` of `get_ip_address`, instrumented with a flag
recording whether `s.close()` was invoked (the `finally` clause).
Mirrors monitor.py lines 27-45: resolve hostname; if the address starts
with "127." open a UDP socket, connect toward 10.254.254.254, read
`getsockname()`; on any exception in that inner `try`, re-fetch the
hostname-resolved address; `finally` close the socket (an exception from
`close` replaces the pending result). -/
def ipBody (env : NetEnv) : Except PyErr String × Bool :=
  match env.gethostname with
  | .error e => (.error e, false)
  | .ok hostname =>
    match env.gethostbyname hostname with
    | .error e => (.error e, false)
    | .ok ip =>
      if startsWithPy ip "127." then
        match env.socketNew with
        | .error e => (.error e, false)
        | .ok _ =>
          let inner : Except PyErr String :=
            match env.connectTrick with
            | .ok _ =>
              match env.getsockname with
              | .ok a => .ok a
              | .error _ => env.gethostbyname hostname
            | .error _ => env.gethostbyname hostname
          match env.closeSocket with
          | .ok _ => (inner, true)
          | .error e => (.error e, true)
      else (.ok ip, false)

/-- `get_ip_address` (monitor.py lines 25-50): the outer `except` arms map
`socket.gaierror` to `"N/A (Network Error)"` and any other exception to
`"N/A (Error)"`; a normal completion returns the address string. -/
def get_ip_address (env : NetEnv) : String :=
  match (ipBody env).1 with
  | .ok ip => ip
  | .error .gaierror => "N/A (Network Error)"
  | .error .otherExc => "N/A (Error)"

/-! ### CPU sensor (`get_cpu_info`, monitor.py lines 52-69) -/

/-- Environment for `get_cpu_info`: `cpu_brand` models
`cpuinfo.get_cpu_info().get('brand_raw', 'N/A')` — `.ok none` is a
successful query whose dict lacks the key; `cpu_percent` models
`psutil.cpu_percent(interval=0.1)`. -/
structure CpuEnv where
  cpu_brand : Except PyErr (Option String)
  cpu_percent : Except PyErr ℚ

/-- A sampled usage slot as the Python code holds it: either a number
(later formatted by the GUI layer) or a plain string such as "N/A". -/
abbrev UsageSlot := ℚ ⊕ String

/-- `get_cpu_info` (monitor.py lines 52-69): name and usage are fetched in
two separate `try` blocks, so either can fail independently. -/
def get_cpu_info (env : CpuEnv) : String × UsageSlot :=
  let cpu_name : String :=
    match env.cpu_brand with
    | .ok (some brand) => brand
    | .ok none => "N/A"
    | .error _ => "N/A (Error getting name)"
  let cpu_usage : UsageSlot :=
    match env.cpu_percent with
    | .ok q => Sum.inl q
    | .error _ => Sum.inr "N/A"
  (cpu_name, cpu_usage)

/-! ### RAM sensor (`get_ram_info`, monitor.py lines 71-80) -/

/-- Environment for `get_ram_info`: `virtual_memory` models
`psutil.virtual_memory()`, read once, returning `(total bytes, percent)`. -/
structure RamEnv where
  virtual_memory : Except PyErr (ℚ × ℚ)

/-- `get_ram_info` (monitor.py lines 71-80): one `try` covers both fields,
so they fail together; total is converted to GiB and formatted with two
decimals inside the sensor. -/
def get_ram_info (env : RamEnv) : String × UsageSlot :=
  match env.virtual_memory with
  | .ok (total, percent) =>
    (formatFixed 2 (total / ((1024 : ℚ) ^ 3)) ++ " GB", Sum.inl percent)
  | .error _ => ("N/A", Sum.inr "N/A")

/-! ### GPU sensor (`get_gpu_info`, monitor.py lines 82-108) -/

/-- One GPUtil device record: its display name and its load fraction
(documented range 0.0-1.0). -/
structure Gpu where
  name : String
  load : ℚ
deriving DecidableEq

/-- Environment for `get_gpu_info`: `getGPUs` models `GPUtil.getGPUs()`. -/
structure GpuEnv where
  getGPUs : Except PyErr (List Gpu)

/-- `get_gpu_info` (monitor.py lines 82-108), instrumented with a flag
recording whether `GPUtil.getGPUs()` was invoked.  The module-level
`gpus_available` flag (set once at import, lines 10-20) is a parameter.
If the flag is false the sensor returns immediately; otherwise the query
runs under a `try` that converts any exception to the query-error pair;
an empty device list yields the no-device pair; otherwise the first
device of the list is reported with its load times 100, one decimal. -/
def get_gpu_info (gpus_available : Bool) (env : GpuEnv) : (String × String) × Bool :=
  if !gpus_available then (("N/A (GPUtil unavailable)", "N/A"), false)
  else
    match env.getGPUs with
    | .error _ => (("N/A (Error querying GPU)", "N/A"), true)
    | .ok [] => (("N/A (No supported GPU found)", "N/A"), true)
    | .ok (gpu :: _) =>
      ((gpu.name, formatFixed 1 (gpu.load * 100) ++ "%"), true)

/-! ### The tick (`SystemMonitorApp.update_info`, monitor.py lines 161-185) -/

/-- One tick's environment: the library oracles each sensor reads during
that tick, plus the import-time `gpus_available` flag. -/
structure Env where
  gpus_available : Bool
  net : NetEnv
  cpu : CpuEnv
  ram : RamEnv
  gpu : GpuEnv

/-- The seven tkinter `StringVar`s of the GUI, i.e. the displayed
snapshot.  In tkinter a `StringVar` always holds a string; "unset" can
only mean "still holding an older value". -/
structure Display where
  ip : String
  cpu_name : String
  cpu_usage : String
  ram_total : String
  ram_usage : String
  gpu_name : String
  gpu_usage : String
deriving DecidableEq

/-- Initial `StringVar` contents set in `__init__` (monitor.py 125-131). -/
def initDisplay : Display :=
  { ip := "Fetching...", cpu_name := "Fetching...", cpu_usage := "Fetching...",
    ram_total := "Fetching...", ram_usage := "Fetching...",
    gpu_name := "Fetching...", gpu_usage := "Fetching..." }

/-- The GUI-layer rendering of a usage slot (monitor.py lines 173 and 175):
`f"{u:.1f}%" if isinstance(u, (int, float)) else u`. -/
def renderUsage : UsageSlot → String
  | Sum.inl q => formatFixed 1 q ++ "%"
  | Sum.inr s => s

/-- The snapshot `update_info` computes and publishes on a fault-free tick
(monitor.py lines 165-177): each field is that sensor's output for this
tick's environment, with the two numeric usage slots formatted by
`renderUsage`. -/
def update_body (env : Env) : Display :=
  { ip := get_ip_address env.net
    cpu_name := (get_cpu_info env.cpu).1
    cpu_usage := renderUsage (get_cpu_info env.cpu).2
    ram_total := (get_ram_info env.ram).1
    ram_usage := renderUsage (get_ram_info env.ram).2
    gpu_name := (get_gpu_info env.gpus_available env.gpu).1.1
    gpu_usage := (get_gpu_info env.gpus_available env.gpu).1.2 }

/-- The atomic statements inside `update_info`'s `try` block, in program
order: the four sensor fetches (lines 165-168) and the seven `StringVar`
writes (lines 171-177). -/
inductive TickStep
  | fetchIp | fetchCpu | fetchRam | fetchGpu
  | setIp | setCpuName | setCpuUsage | setRamTotal | setRamUsage
  | setGpuName | setGpuUsage
deriving DecidableEq

/-- Steps belonging to the assembly (fetch) phase, before any publication. -/
def TickStep.isFetch : TickStep → Bool
  | .fetchIp | .fetchCpu | .fetchRam | .fetchGpu => true
  | _ => false

/-- The `try ... except` body of `update_info` with an optional injected
fault: `fault = some s` means statement `s` raises an unexpected exception
(the spec's "error during the refresh tick itself").  Python semantics:
statements before the raising one keep their effects, the rest of the
`try` block is skipped, the `except Exception` arm logs the error.
Returns the resulting display and whether the `except` arm ran. -/
def runTick (fault : Option TickStep) (env : Env) (d : Display) : Display × Bool :=
  if fault = some .fetchIp then (d, true) else
  let ip := get_ip_address env.net
  if fault = some .fetchCpu then (d, true) else
  let cpu := get_cpu_info env.cpu
  if fault = some .fetchRam then (d, true) else
  let ram := get_ram_info env.ram
  if fault = some .fetchGpu then (d, true) else
  let gpu := (get_gpu_info env.gpus_available env.gpu).1
  if fault = some .setIp then (d, true) else
  let d1 : Display := { d with ip := ip }
  if fault = some .setCpuName then (d1, true) else
  let d2 : Display := { d1 with cpu_name := cpu.1 }
  if fault = some .setCpuUsage then (d2, true) else
  let d3 : Display := { d2 with cpu_usage := renderUsage cpu.2 }
  if fault = some .setRamTotal then (d3, true) else
  let d4 : Display := { d3 with ram_total := ram.1 }
  if fault = some .setRamUsage then (d4, true) else
  let d5 : Display := { d4 with ram_usage := renderUsage ram.2 }
  if fault = some .setGpuName then (d5, true) else
  let d6 : Display := { d5 with gpu_name := gpu.1 }
  if fault = some .setGpuUsage then (d6, true) else
  let d7 : Display := { d6 with gpu_usage := gpu.2 }
  (d7, false)

/-- Application state: the displayed snapshot plus how many times
`root.after(1000, self.update_info)` has been issued. -/
structure App where
  display : Display
  armed : ℕ
deriving DecidableEq

/-- `update_info` (monitor.py lines 161-185): run the `try ... except`
body, then — outside the `try`, hence on every path — re-arm the timer. -/
def update_info (fault : Option TickStep) (env : Env) (a : App) : App :=
  { display := (runTick fault env a.display).1, armed := a.armed + 1 }

/-- `SystemMonitorApp.__init__` (monitor.py lines 114-159): initialise the
`StringVar`s to the placeholder, then call `self.update_info()` once,
synchronously, before the constructor returns (line 159). -/
def mkSystemMonitorApp (env : Env) : App :=
  update_info none env { display := initDisplay, armed := 0 }

/-! ### Refresh-loop trace (tkinter event loop plus `after`) -/

/-- Observable events of one tick of the refresh loop. -/
inductive Event
  | collectStart
  | collectEnd
  | publish
  | arm
deriving DecidableEq

/-- What one `update_info` callback emits, in order: sampling runs first
(lines 165-168), then the snapshot is published (lines 171-177), and only
then — after the body has completed — `root.after` re-arms the timer
(line 185).  The tkinter event loop is single-threaded and runs each
`after` callback to completion before dispatching the next. -/
def tickTrace : List Event := [Event.collectStart, Event.collectEnd, Event.publish, Event.arm]

/-- The event trace of `n` consecutive ticks of the refresh loop. -/
def runTrace : ℕ → List Event
  | 0 => []
  | n + 1 => tickTrace ++ runTrace n

/-- Occurrences of an event in a trace. -/
def countEv (e : Event) : List Event → ℕ
  | [] => 0
  | x :: t => (if x = e then 1 else 0) + countEv e t

/-- Number of collections in flight after the events of `t`: samplings
started minus samplings completed. -/
def inFlight (t : List Event) : ℤ :=
  (countEv Event.collectStart t : ℤ) - (countEv Event.collectEnd t : ℤ)

/-! ### Numeric values behind the snapshot fields -/

/-- The numeric CPU usage of a successful sample (the float the GUI layer
formats at monitor.py line 173); `none` when the sample failed. -/
def cpuUsageVal (env : CpuEnv) : Option ℚ :=
  match (get_cpu_info env).2 with
  | Sum.inl q => some q
  | Sum.inr _ => none

/-- The numeric RAM usage of a successful sample (monitor.py line 76). -/
def ramUsageVal (env : RamEnv) : Option ℚ :=
  match (get_ram_info env).2 with
  | Sum.inl q => some q
  | Sum.inr _ => none

/-- The numeric GiB total the RAM sensor formats (monitor.py line 75):
`memory.total / 1024 ** 3`. -/
def ramTotalVal (env : RamEnv) : Option ℚ :=
  match env.virtual_memory with
  | .ok (total, _) => some (total / (1024 : ℚ) ^ 3)
  | .error _ => none

/-- The numeric GPU usage percentage the GPU sensor formats
(monitor.py line 96): `gpu.load * 100` of the first device. -/
def gpuUsageVal (gpus_available : Bool) (env : GpuEnv) : Option ℚ :=
  if !gpus_available then none
  else
    match env.getGPUs with
    | .ok (g :: _) => some (g.load * 100)
    | _ => none

/-! ### Concrete environments used in the theorems below -/

/-- An environment in which every library call of every sensor raises
(hostname resolution with `socket.gaierror`, the rest with a generic
exception) and the GPU flag is set. -/
def failEnv : Env :=
  { gpus_available := true
    net := { gethostname := .error .gaierror, gethostbyname := fun _ => .error .gaierror,
             socketNew := .error .otherExc, connectTrick := .error .otherExc,
             getsockname := .error .otherExc, closeSocket := .error .otherExc }
    cpu := { cpu_brand := .error .otherExc, cpu_percent := .error .otherExc }
    ram := { virtual_memory := .error .otherExc }
    gpu := { getGPUs := .error .otherExc } }

/-- An environment whose network sensor succeeds with a non-loopback
address while every other sensor raises and GPUtil is absent. -/
def cexEnv : Env :=
  { gpus_available := false
    net := { gethostname := .ok "host", gethostbyname := fun _ => .ok "192.168.1.50",
             socketNew := .ok (), connectTrick := .ok (),
             getsockname := .ok "0.0.0.0", closeSocket := .ok () }
    cpu := { cpu_brand := .error .otherExc, cpu_percent := .error .otherExc }
    ram := { virtual_memory := .error .otherExc }
    gpu := { getGPUs := .error .otherExc } }

/-- A display state standing for the previous successfully-produced
snapshot. -/
def prevDisplay : Display :=
  { ip := "10.0.0.1", cpu_name := "Old CPU", cpu_usage := "1.0%",
    ram_total := "8.00 GB", ram_usage := "2.0%",
    gpu_name := "Old GPU", gpu_usage := "3.0%" }

/-- A network environment in which `socket.gethostname()` raises a generic
(non-`gaierror`) exception. -/
def netGenericFail : NetEnv :=
  { gethostname := .error .otherExc, gethostbyname := fun _ => .ok "1.2.3.4",
    socketNew := .ok (), connectTrick := .ok (),
    getsockname := .ok "9.9.9.9", closeSocket := .ok () }

/-- A network environment where the hostname resolves to a loopback
address and the UDP connect trick fails, so the sensor falls back to the
re-fetched loopback address. -/
def netLoopbackEnv : NetEnv :=
  { gethostname := .ok "myhost", gethostbyname := fun _ => .ok "127.0.1.1",
    socketNew := .ok (), connectTrick := .error .otherExc,
    getsockname := .ok "unused", closeSocket := .ok () }

/-- A GPU environment reporting two devices, the first fully loaded. -/
def gpuTwoEnv : GpuEnv := { getGPUs := .ok [⟨"GeForce RTX", 1⟩, ⟨"Second GPU", 0⟩] }

/-- An environment with in-range library readings on every sensor. -/
def rangesEnv : Env :=
  { gpus_available := true
    net := { gethostname := .ok "h", gethostbyname := fun _ => .ok "10.1.1.1",
             socketNew := .ok (), connectTrick := .ok (),
             getsockname := .ok "10.1.1.1", closeSocket := .ok () }
    cpu := { cpu_brand := .ok (some "Test CPU"), cpu_percent := .ok 50 }
    ram := { virtual_memory := .ok (1073741824, 25) }
    gpu := { getGPUs := .ok [⟨"GPU0", 1⟩] } }

/-- A RAM environment reading exactly 2147483648 bytes total. -/
def ramEnvRT : RamEnv := { virtual_memory := .ok (2147483648, 50) }

/-- A CPU environment sampling a usage of exactly 42.36. -/
def cpuEnvRT : CpuEnv := { cpu_brand := .ok (some "Test CPU"), cpu_percent := .ok (mkRat 4236 100) }

/-! ### Helper lemmas -/

/-- A fault-free tick overwrites every field: its result is the fully
assembled snapshot of this tick's environment, independent of the display
state the tick started from. -/
theorem runTick_none (env : Env) (d : Display) :
    runTick none env d = (update_body env, false) := rfl

/-- Case analysis for a front segment of a cons list. -/
theorem front_cases {p : List Event} {x : Event} {xs : List Event}
    (h : p <+: x :: xs) : p = [] ∨ ∃ q, p = x :: q ∧ q <+: xs := by
  obtain ⟨t, ht⟩ := h
  cases p with
  | nil => exact Or.inl rfl
  | cons a as =>
    injection ht with h1 h2
    exact Or.inr ⟨as, by rw [h1], ⟨t, h2⟩⟩

/-! ### Claim theorems -/

/-- C1 (sensor isolation): each field of the snapshot assembled in a tick
is exactly the output of its own sensor on that sensor's own environment —
so forcing any one sensor to fail cannot change any other sensor's field —
and a raising library call inside a sensor is caught at that sensor and
converted to that sensor's "N/A" unavailability value (the code's rendering
of the spec's `Unavailable`), never propagated: collection of the remaining
sensors always runs to completion, since every sensor is a total function
into values. -/
theorem sensor_isolation (env : Env) :
    ((update_body env).ip = get_ip_address env.net
      ∧ (update_body env).cpu_name = (get_cpu_info env.cpu).1
      ∧ (update_body env).cpu_usage = renderUsage (get_cpu_info env.cpu).2
      ∧ (update_body env).ram_total = (get_ram_info env.ram).1
      ∧ (update_body env).ram_usage = renderUsage (get_ram_info env.ram).2
      ∧ (update_body env).gpu_name = (get_gpu_info env.gpus_available env.gpu).1.1
      ∧ (update_body env).gpu_usage = (get_gpu_info env.gpus_available env.gpu).1.2)
    ∧ (raises (ipBody env.net).1 = true →
        get_ip_address env.net = "N/A (Network Error)" ∨ get_ip_address env.net = "N/A (Error)")
    ∧ (raises env.cpu.cpu_brand = true → (get_cpu_info env.cpu).1 = "N/A (Error getting name)")
    ∧ (raises env.cpu.cpu_percent = true → (get_cpu_info env.cpu).2 = Sum.inr "N/A")
    ∧ (raises env.ram.virtual_memory = true → get_ram_info env.ram = ("N/A", Sum.inr "N/A"))
    ∧ (env.gpus_available = true → raises env.gpu.getGPUs = true →
        (get_gpu_info env.gpus_available env.gpu).1 = ("N/A (Error querying GPU)", "N/A")) := by
  refine ⟨⟨rfl, rfl, rfl, rfl, rfl, rfl, rfl⟩, ?_, ?_, ?_, ?_, ?_⟩
  · intro h
    unfold get_ip_address
    cases hb : (ipBody env.net).1 with
    | error e =>
      cases e
      · exact Or.inl rfl
      · exact Or.inr rfl
    | ok v =>
      rw [hb] at h
      exact absurd h (by simp [raises])
  · intro h
    cases hb : env.cpu.cpu_brand with
    | error e => simp [get_cpu_info, hb]
    | ok v =>
      rw [hb] at h
      exact absurd h (by simp [raises])
  · intro h
    cases hb : env.cpu.cpu_percent with
    | error e => simp [get_cpu_info, hb]
    | ok v =>
      rw [hb] at h
      exact absurd h (by simp [raises])
  · intro h
    cases hb : env.ram.virtual_memory with
    | error e => simp [get_ram_info, hb]
    | ok v =>
      rw [hb] at h
      exact absurd h (by simp [raises])
  · intro hflag h
    cases hb : env.gpu.getGPUs with
    | error e => simp [get_gpu_info, hflag, hb]
    | ok v =>
      rw [hb] at h
      exact absurd h (by simp [raises])

/-- C1 witness: in the all-failing environment each sensor reports its own
unavailability value. -/
theorem sensor_isolation_check :
    (get_ip_address failEnv.net = "N/A (Network Error)" ∨ get_ip_address failEnv.net = "N/A (Error)")
    ∧ (get_cpu_info failEnv.cpu).1 = "N/A (Error getting name)"
    ∧ (get_cpu_info failEnv.cpu).2 = Sum.inr "N/A"
    ∧ get_ram_info failEnv.ram = ("N/A", Sum.inr "N/A")
    ∧ (get_gpu_info failEnv.gpus_available failEnv.gpu).1 = ("N/A (Error querying GPU)", "N/A") :=
  ⟨(sensor_isolation failEnv).2.1 (by decide),
   (sensor_isolation failEnv).2.2.1 (by decide),
   (sensor_isolation failEnv).2.2.2.1 (by decide),
   (sensor_isolation failEnv).2.2.2.2.1 (by decide),
   (sensor_isolation failEnv).2.2.2.2.2 rfl (by decide)⟩

/-- C3 (fully-formed snapshot): a fault-free tick overwrites all seven
declared fields, so the display it publishes is a function of this tick's
environment alone — no field can be left over from an earlier state, hence
a reader between callbacks (the only points at which the single-threaded
tkinter event loop lets the display render) never sees a half-updated
snapshot.  Every field of `update_body` is a total sensor output: a real
value or an explicit "N/A" unavailability value. -/
theorem snapshot_fully_formed (env : Env) (d d2 : Display) :
    (runTick none env d).1 = update_body env
    ∧ (runTick none env d).1 = (runTick none env d2).1 := by
  rw [runTick_none, runTick_none]
  exact ⟨rfl, rfl⟩

/-- C6 (GPU absence): with the import-time capability flag false, the GPU
sensor returns immediately with the capability-unavailable pair — the name
slot carries the code's rendering `"N/A (GPUtil unavailable)"` of the
spec's `Unavailable("capability unavailable")` and the usage slot its bare
unavailability marker `"N/A"` — and `GPUtil.getGPUs` is never invoked
(the instrumentation flag is false), whatever the device list would be. -/
theorem gpu_absent (env : GpuEnv) :
    get_gpu_info false env = (("N/A (GPUtil unavailable)", "N/A"), false) := rfl

/-- C10 (immediate first sample): constructing `SystemMonitorApp` runs one
complete `update_info` synchronously, so the constructed state already
displays the first tick's fully sampled snapshot (not the "Fetching..."
placeholders it set just before), and exactly one timer has been armed —
armed only after that first sample-and-publish completed. -/
theorem immediate_first_sample (env : Env) :
    (mkSystemMonitorApp env).display = update_body env
    ∧ (mkSystemMonitorApp env).armed = 1
    ∧ initDisplay.ip = "Fetching..." := by
  refine ⟨?_, rfl, rfl⟩
  show (runTick none env initDisplay).1 = update_body env
  rw [runTick_none]

/-- C2 (non-overlapping ticks): `root.after(1000, self.update_info)` is
issued only at the end of `update_info`, after sampling and publishing have
completed, and the single-threaded tkinter event loop runs each callback to
completion, so in the event trace of any number of ticks the number of
samplings in flight never exceeds one at any point — a tick that overruns
its period merely delays the next arm, it never overlaps it. -/
theorem non_overlap : ∀ (n : ℕ) (p : List Event), p <+: runTrace n → inFlight p ≤ 1 := by
  intro n
  induction n with
  | zero =>
    intro p hp
    obtain ⟨t, ht⟩ := hp
    have hp2 : p = [] := by
      cases p with
      | nil => rfl
      | cons a as => simp [runTrace] at ht
    subst hp2
    decide
  | succ n ih =>
    intro p hp
    simp only [runTrace, tickTrace, List.cons_append, List.nil_append] at hp
    rcases front_cases hp with h0 | ⟨q1, rfl, hq1⟩
    · subst h0; decide
    rcases front_cases hq1 with h0 | ⟨q2, rfl, hq2⟩
    · subst h0; decide
    rcases front_cases hq2 with h0 | ⟨q3, rfl, hq3⟩
    · subst h0; decide
    rcases front_cases hq3 with h0 | ⟨q4, rfl, hq4⟩
    · subst h0; decide
    have hrec := ih q4 hq4
    simp only [inFlight, countEv] at hrec ⊢
    simp only [reduceIte, reduceCtorEq]
    omega

/-- C2 witness: a concrete mid-tick point of a three-tick trace, with the
sampling started and not yet completed, has exactly one collection in
flight. -/
theorem non_overlap_check : inFlight [Event.collectStart] ≤ 1 :=
  non_overlap 3 [Event.collectStart]
    ⟨[Event.collectEnd, Event.publish, Event.arm] ++ runTrace 2, rfl⟩

/-- C7 (GPU present path): with the capability flag true the device list
is always queried; an empty list yields the no-device pair (name slot
`"N/A (No supported GPU found)"`, the code's rendering of the spec's
`Unavailable("no supported device found")`, usage slot the bare "N/A"
marker); a non-empty list yields exactly the head device — the first in
the list's order, no heuristic — with its name and its load times 100
formatted to one decimal; a raising query yields the query-error pair,
never a propagated exception (the sensor is a total function). -/
theorem gpu_present (env : GpuEnv) :
    (env.getGPUs = .ok [] → (get_gpu_info true env).1 = ("N/A (No supported GPU found)", "N/A"))
    ∧ (∀ g rest, env.getGPUs = .ok (g :: rest) →
        (get_gpu_info true env).1 = (g.name, formatFixed 1 (g.load * 100) ++ "%"))
    ∧ (∀ e, env.getGPUs = .error e →
        (get_gpu_info true env).1 = ("N/A (Error querying GPU)", "N/A"))
    ∧ (get_gpu_info true env).2 = true := by
  refine ⟨?_, ?_, ?_, ?_⟩
  · intro h
    simp [get_gpu_info, h]
  · intro g rest h
    simp [get_gpu_info, h]
  · intro e h
    simp [get_gpu_info, h]
  · cases h : env.getGPUs with
    | error e => simp [get_gpu_info, h]
    | ok l =>
      cases l with
      | nil => simp [get_gpu_info, h]
      | cons g rest => simp [get_gpu_info, h]

/-- C7 witness: with two devices present, the sensor reports the first
device of the list (name "GeForce RTX", load 1.0 rendered "100.0%"),
ignoring the second, and the query was invoked. -/
theorem gpu_present_check :
    (get_gpu_info true gpuTwoEnv).1 = ("GeForce RTX", "100.0%")
    ∧ (get_gpu_info true gpuTwoEnv).2 = true := by
  constructor
  · have h := (gpu_present gpuTwoEnv).2.1 ⟨"GeForce RTX", 1⟩ [⟨"Second GPU", 0⟩] rfl
    rw [h]
    have h2 : ((1 : ℚ) * 100) = 100 := by norm_num
    simp only [h2]
    decide
  · exact (gpu_present gpuTwoEnv).2.2.2

/-- C9 (round-trip formatting): a total-RAM reading of exactly 2147483648
bytes renders as "2.00 GB" (bytes divided by 1024 cubed, two decimals),
and a CPU usage sample of exactly 42.36 renders as "42.4%" (one-decimal
rounding applied by the GUI layer). -/
theorem round_trip_format :
    (get_ram_info ramEnvRT).1 = "2.00 GB"
    ∧ renderUsage (get_cpu_info cpuEnvRT).2 = "42.4%" := by
  constructor
  · have h : (2147483648 : ℚ) / 1024 ^ 3 = 2 := by norm_num
    show formatFixed 2 ((2147483648 : ℚ) / 1024 ^ 3) ++ " GB" = "2.00 GB"
    rw [h]
    decide
  · decide

/-- C4 counterexample: inject an unexpected error at the second
publication statement (`self.cpu_name_var.set(...)`) of a tick whose
network sensor sampled a new address.  The error is caught (the `except`
arm runs, second component true), yet the displayed ip field no longer
holds its previous value — refuting "every displayed field keeps the value
it had from the previous successfully-produced snapshot". -/
theorem tick_atomicity_counterexample :
    (runTick (some .setCpuName) cexEnv prevDisplay).2 = true
    ∧ (runTick (some .setCpuName) cexEnv prevDisplay).1.ip ≠ prevDisplay.ip := by decide

/-- C4 amended: for every tick in which an unexpected error occurs, the
error is caught by the `except` arm (and logged there) and the next tick
is still scheduled — the timer re-arm sits outside the `try`, so the loop
never stops; the `except` arm runs exactly when a fault occurred; and when
the error occurs during snapshot assembly, before any publication
statement, every displayed field keeps its previous value.  (An error
occurring mid-publication instead leaves the fields already written
holding the new tick's values, as the counterexample shows.) -/
theorem tick_atomicity_amended (fault : Option TickStep) (env : Env) (a : App) :
    (update_info fault env a).armed = a.armed + 1
    ∧ (runTick fault env a.display).2 = fault.isSome
    ∧ (∀ s, fault = some s → s.isFetch = true →
        (runTick fault env a.display).1 = a.display) := by
  refine ⟨rfl, ?_, ?_⟩
  · cases fault with
    | none => rw [runTick_none]; rfl
    | some s => cases s <;> rfl
  · intro s hs hf
    subst hs
    cases s
    · rfl
    · rfl
    · rfl
    · rfl
    all_goals simp [TickStep.isFetch] at hf

/-- C4 witness: a fault injected at the RAM fetch (assembly phase) leaves
every displayed field at its previous value while the timer is still
re-armed. -/
theorem tick_atomicity_check :
    (update_info (some .fetchRam) cexEnv ⟨prevDisplay, 5⟩).armed = 5 + 1
    ∧ (runTick (some .fetchRam) cexEnv prevDisplay).1 = prevDisplay :=
  ⟨(tick_atomicity_amended (some .fetchRam) cexEnv ⟨prevDisplay, 5⟩).1,
   (tick_atomicity_amended (some .fetchRam) cexEnv ⟨prevDisplay, 5⟩).2.2 .fetchRam rfl rfl⟩

/-- C5 counterexample: when `socket.gethostname()` raises a generic
(non-`gaierror`) exception, the sensor answers the generic value
`"N/A (Error)"` — not `"N/A (Network Error)"`, the code's rendering of the
claimed `Unavailable("network error")` — refuting "any unresolved failure
yields Unavailable(\x22network error\x22)". -/
theorem ip_reason_counterexample :
    raises (ipBody netGenericFail).1 = true
    ∧ get_ip_address netGenericFail = "N/A (Error)"
    ∧ "N/A (Error)" ≠ "N/A (Network Error)" := by decide

/-- C5 amended: the network sensor (a) resolves the local hostname to an
address and returns it when it is outside 127.0.0.0/8; (b) when it is a
loopback address, opens a connectionless socket toward the unreachable
external address, returns the OS-selected outbound local address when the
trick works, and closes the socket on every path through the inner block;
(c) when the trick fails, re-resolves via hostname and returns that
loopback address as a plain Ok value; a DNS resolution failure
(`socket.gaierror`) yields `"N/A (Network Error)"` while any other
unresolved failure yields the generic `"N/A (Error)"`; and the operation
never raises to its caller — it is a total function into strings. -/
theorem get_ip_address_amended (env : NetEnv) (h ip a : String) :
    (env.gethostname = .ok h → env.gethostbyname h = .ok ip →
      startsWithPy ip "127." = false → get_ip_address env = ip)
    ∧ (env.gethostname = .ok h → env.gethostbyname h = .ok ip →
        startsWithPy ip "127." = true → env.socketNew = .ok () →
        env.connectTrick = .ok () → env.getsockname = .ok a →
        env.closeSocket = .ok () → get_ip_address env = a)
    ∧ (env.gethostname = .ok h → env.gethostbyname h = .ok ip →
        startsWithPy ip "127." = true → env.socketNew = .ok () →
        raises env.connectTrick = true → env.closeSocket = .ok () →
        get_ip_address env = ip)
    ∧ (env.gethostname = .ok h → env.gethostbyname h = .ok ip →
        startsWithPy ip "127." = true → env.socketNew = .ok () →
        (ipBody env).2 = true)
    ∧ (env.gethostname = .error .gaierror → get_ip_address env = "N/A (Network Error)")
    ∧ (env.gethostname = .error .otherExc → get_ip_address env = "N/A (Error)") := by
  refine ⟨?_, ?_, ?_, ?_, ?_, ?_⟩
  · intro h1 h2 h3
    simp [get_ip_address, ipBody, h1, h2, h3]
  · intro h1 h2 h3 h4 h5 h6 h7
    simp [get_ip_address, ipBody, h1, h2, h3, h4, h5, h6, h7]
  · intro h1 h2 h3 h4 h5 h6
    cases hc : env.connectTrick with
    | error e => simp [get_ip_address, ipBody, h1, h2, h3, h4, h6, hc]
    | ok u =>
      rw [hc] at h5
      exact absurd h5 (by simp [raises])
  · intro h1 h2 h3 h4
    simp only [ipBody, h1, h2, h3, h4, if_true]
    cases hc : env.closeSocket <;> simp
  · intro h1
    simp [get_ip_address, ipBody, h1]
  · intro h1
    simp [get_ip_address, ipBody, h1]

/-- C5 witness for the amended claim: hostname resolves to the loopback
address 127.0.1.1, the connect trick raises, the socket is still closed,
and the sensor returns the loopback address as a plain Ok value. -/
theorem get_ip_address_amended_check :
    get_ip_address netLoopbackEnv = "127.0.1.1"
    ∧ (ipBody netLoopbackEnv).2 = true :=
  ⟨(get_ip_address_amended netLoopbackEnv "myhost" "127.0.1.1" "unused").2.2.1
      rfl rfl (by decide) rfl (by decide) rfl,
   (get_ip_address_amended netLoopbackEnv "myhost" "127.0.1.1" "unused").2.2.2.1
      rfl rfl (by decide) rfl⟩

/-- C8 (field typing and ranges): the code passes the library readings
through unchanged, so under the libraries' documented contracts —
`psutil.cpu_percent` and `virtual_memory().percent` in [0,100], a positive
total byte count, GPUtil loads in [0,1] — every successfully-sampled usage
value in a snapshot lies in [0,100] and a successfully-sampled RAM total
in GiB is strictly positive. -/
theorem metric_ranges (env : Env)
    (hcpu : ∀ q, env.cpu.cpu_percent = Except.ok q → 0 ≤ q ∧ q ≤ 100)
    (hram : ∀ t p, env.ram.virtual_memory = Except.ok (t, p) → 0 < t ∧ 0 ≤ p ∧ p ≤ 100)
    (hgpu : ∀ l g, env.gpu.getGPUs = Except.ok l → g ∈ l → 0 ≤ g.load ∧ g.load ≤ 1) :
    (∀ q, cpuUsageVal env.cpu = some q → 0 ≤ q ∧ q ≤ 100)
    ∧ (∀ q, ramUsageVal env.ram = some q → 0 ≤ q ∧ q ≤ 100)
    ∧ (∀ q, gpuUsageVal env.gpus_available env.gpu = some q → 0 ≤ q ∧ q ≤ 100)
    ∧ (∀ q, ramTotalVal env.ram = some q → 0 < q) := by
  refine ⟨?_, ?_, ?_, ?_⟩
  · intro q hq
    cases hb : env.cpu.cpu_percent with
    | error e => simp [cpuUsageVal, get_cpu_info, hb] at hq
    | ok v =>
      have hv : v = q := by simpa [cpuUsageVal, get_cpu_info, hb] using hq
      exact hv ▸ hcpu v hb
  · intro q hq
    cases hb : env.ram.virtual_memory with
    | error e => simp [ramUsageVal, get_ram_info, hb] at hq
    | ok v =>
      obtain ⟨t, p⟩ := v
      have hv : p = q := by simpa [ramUsageVal, get_ram_info, hb] using hq
      have := (hram t p hb).2
      exact hv ▸ this
  · intro q hq
    cases hflag : env.gpus_available with
    | false => simp [gpuUsageVal, hflag] at hq
    | true =>
      cases hb : env.gpu.getGPUs with
      | error e => simp [gpuUsageVal, hflag, hb] at hq
      | ok l =>
        cases l with
        | nil => simp [gpuUsageVal, hflag, hb] at hq
        | cons g rest =>
          have hv : g.load * 100 = q := by simpa [gpuUsageVal, hflag, hb] using hq
          have hload := hgpu (g :: rest) g hb (List.mem_cons_self g rest)
          subst hv
          constructor
          · exact mul_nonneg hload.1 (by norm_num)
          · nlinarith [hload.2]
  · intro q hq
    cases hb : env.ram.virtual_memory with
    | error e => simp [ramTotalVal, hb] at hq
    | ok v =>
      obtain ⟨t, p⟩ := v
      have hv : t / (1024 : ℚ) ^ 3 = q := by simpa [ramTotalVal, hb] using hq
      have ht := (hram t p hb).1
      subst hv
      exact div_pos ht (by norm_num)

/-- C8 witness: in the in-range environment the sampled CPU usage 50 lies
in [0,100] and the sampled RAM total of one GiB is positive. -/
theorem metric_ranges_check :
    cpuUsageVal rangesEnv.cpu = some 50
    ∧ (0 ≤ (50 : ℚ) ∧ (50 : ℚ) ≤ 100)
    ∧ ramTotalVal rangesEnv.ram = some ((1073741824 : ℚ) / 1024 ^ 3)
    ∧ 0 < (1073741824 : ℚ) / 1024 ^ 3 := by
  have hcpu : ∀ q, rangesEnv.cpu.cpu_percent = Except.ok q → 0 ≤ q ∧ q ≤ 100 := by
    intro q hq
    have hq2 : (Except.ok (50 : ℚ) : Except PyErr ℚ) = Except.ok q := hq
    injection hq2 with h2
    subst h2
    norm_num
  have hram : ∀ t p, rangesEnv.ram.virtual_memory = Except.ok (t, p) →
      0 < t ∧ 0 ≤ p ∧ p ≤ 100 := by
    intro t p hq
    have hq2 : (Except.ok ((1073741824 : ℚ), (25 : ℚ)) : Except PyErr (ℚ × ℚ)) = Except.ok (t, p) := hq
    injection hq2 with h2
    injection h2 with h3 h4
    subst h3
    subst h4
    norm_num
  have hgpu : ∀ l g, rangesEnv.gpu.getGPUs = Except.ok l → g ∈ l →
      0 ≤ g.load ∧ g.load ≤ 1 := by
    intro l g hq hg
    have hq2 : (Except.ok [(⟨"GPU0", 1⟩ : Gpu)] : Except PyErr (List Gpu)) = Except.ok l := hq
    injection hq2 with h2
    subst h2
    have hg2 : g = (⟨"GPU0", 1⟩ : Gpu) := List.mem_singleton.mp hg
    subst hg2
    norm_num
  exact ⟨rfl, (metric_ranges rangesEnv hcpu hram hgpu).1 50 rfl, rfl,
    (metric_ranges rangesEnv hcpu hram hgpu).2.2.2 _ rfl⟩

end Monitor
